import Mathlib

/-!
Verification of the model-inflation algorithm of the `readyplayerme-avatar`
component (`src/components/readyplayerme-avatar.js`, `_inflate`).

The embedding translates the `_inflate` function and the host/library
operations it relies on into pure Lean definitions:

* `SceneNode` models a THREE.Object3D node of the loaded model hierarchy
  (name, type tag, visibility, local transform, quaternion, uuid, children).
* `Entity` models an A-Frame element (`a-entity` or a template clone):
  tag name, DOM attributes, class list, its backing `THREE.Group` state
  (`Object3DState`), the `object3DMap` populated by `setObject3D`, and the
  DOM children.
* `Env` bundles the external collaborators: the template lookup
  (`this.el.querySelector('template[data-name=...]')`), the component's
  `hands`/`shirt`/`head` flags, and the quaternion → YXZ-Euler conversion
  performed by `THREE.Euler.setFromQuaternion`.
* Identity tokens (`uuid`) are modelled as naturals drawn from a monotone
  counter threaded through the computation; `THREE.MathUtils.generateUUID`
  and the uuid given to each freshly constructed `THREE.Group` both draw
  from this counter.  The collaborator contract that generated tokens are
  unused is expressed by hypotheses bounding the pre-existing tokens by the
  initial counter value.

`inflateAux env n ctr` returns `(optional entity, post-state of n, ctr')`,
mirroring that `_inflate` both returns the entity (or `undefined`) and
mutates the node in place.  `inflateList` is the `for (const child of
children)` loop over the snapshot of the children; a child that produced an
entity is removed from its parent's child list (`setObject3D` reparents the
node under the new entity's group).
-/

namespace RPMAvatar

/-- Exact-rational 3D vector (models `THREE.Vector3`). -/
structure Vec3 where
  x : ℚ
  y : ℚ
  z : ℚ
deriving DecidableEq, Repr

def Vec3.zero : Vec3 := ⟨0, 0, 0⟩

def Vec3.one : Vec3 := ⟨1, 1, 1⟩

/-- Euler angles tagged with an axis order (models `THREE.Euler`). -/
structure Euler where
  x : ℚ
  y : ℚ
  z : ℚ
  order : String
deriving DecidableEq, Repr

/-- Quaternion (models `THREE.Quaternion`). -/
structure Quat where
  x : ℚ
  y : ℚ
  z : ℚ
  w : ℚ
deriving DecidableEq, Repr

/-- The identity quaternion, produced when an identity matrix is decomposed. -/
def Quat.identity : Quat := ⟨0, 0, 0, 1⟩

/-- The scalar fields of a model node (everything but the children). -/
structure NodeData where
  name : String
  type : String
  visible : Bool
  position : Vec3
  rotation : Euler
  quaternion : Quat
  scale : Vec3
  matrixAutoUpdate : Bool
  uuid : Nat
deriving DecidableEq, Repr

/-- A node of the loaded model hierarchy (`THREE.Object3D` tree). -/
inductive SceneNode where
  | node (data : NodeData) (children : List SceneNode)

def SceneNode.data : SceneNode → NodeData
  | .node d _ => d

def SceneNode.children : SceneNode → List SceneNode
  | .node _ cs => cs

/-- State of an entity's backing `THREE.Group` (`el.object3D`). -/
structure Object3DState where
  position : Vec3
  rotation : Euler
  scale : Vec3
  matrixNeedsUpdate : Bool
  name : String
  uuid : Nat
deriving DecidableEq, Repr

/-- An A-Frame element as `_inflate` sees it: tag, attributes, class list,
backing group state, `object3DMap` (filled by `setObject3D`), DOM children. -/
inductive Entity where
  | mk (tagName : String) (attributes : List (String × String))
       (classList : List String) (object3D : Object3DState)
       (object3DMap : List (String × SceneNode)) (children : List Entity)

def Entity.tagName : Entity → String
  | .mk t _ _ _ _ _ => t

def Entity.attributes : Entity → List (String × String)
  | .mk _ a _ _ _ _ => a

def Entity.classList : Entity → List String
  | .mk _ _ c _ _ _ => c

def Entity.object3D : Entity → Object3DState
  | .mk _ _ _ o _ _ => o

def Entity.object3DMap : Entity → List (String × SceneNode)
  | .mk _ _ _ _ m _ => m

def Entity.children : Entity → List Entity
  | .mk _ _ _ _ _ ch => ch

/-- A `<template data-name=...>` element; `firstElementChild` is its first
content element, absent when the template is empty. -/
structure Template where
  firstElementChild : Option Entity

/-- External collaborators of `_inflate`: template lookup by node name,
the component's visibility flags, and the quaternion → YXZ Euler
conversion of `THREE.Euler.setFromQuaternion`. -/
structure Env where
  templates : String → Option Template
  hands : Bool
  shirt : Bool
  head : Bool
  quatToEulerYXZ : Quat → ℚ × ℚ × ℚ

/-- `el.setAttribute(key, value)`: replace the attribute if present,
append it otherwise. -/
def setAttr (attrs : List (String × String)) (k v : String) :
    List (String × String) :=
  if attrs.any (fun p => p.1 == k) then
    attrs.map (fun p => if p.1 == k then (k, v) else p)
  else attrs ++ [(k, v)]

/-- First value stored under a key in an attribute list. -/
def lookupAttr : List (String × String) → String → Option String
  | [], _ => none
  | p :: rest, k => if p.1 == k then some p.2 else lookupAttr rest k

/-- `el.getAttribute(key)`. -/
def getAttr (e : Entity) (k : String) : Option String :=
  lookupAttr e.attributes k

/-- `el.classList.add(c)`: appended unless already present. -/
def classListAdd (cls : List String) (c : String) : List String :=
  if c ∈ cls then cls else cls ++ [c]

/-- A character matched by the JS class `[\w-]`, i.e. kept by
`.replace(/[^\w-]/g, '')`. -/
def isWordChar (c : Char) : Bool :=
  c.isAlphanum || c = '_' || c = '-'

/-- `s.replace(/[^\w-]/g, '')`. -/
def stripNonWord (s : String) : String :=
  String.mk (s.toList.filter isWordChar)

/-- State of the `THREE.Group` backing a freshly constructed (or freshly
cloned and upgraded) A-Frame element: identity transform, empty name, and
a newly generated uuid. -/
def defaultObject3D (u : Nat) : Object3DState :=
  { position := Vec3.zero
    rotation := ⟨0, 0, 0, "XYZ"⟩
    scale := Vec3.one
    matrixNeedsUpdate := false
    name := ""
    uuid := u }

/-- `document.createElement('a-entity')`: a default empty entity whose
group draws a fresh uuid from the generator. -/
def newEntity (ctr : Nat) : Entity × Nat :=
  (.mk "a-entity" [] [] (defaultObject3D ctr) [] [], ctr + 1)

mutual

/-- `templateContent.cloneNode(true)`: the markup (tag, attributes, class
list, children) is copied; each cloned element is upgraded with a fresh
default `THREE.Group` and an empty `object3DMap`. -/
def cloneEntity : Entity → Nat → Entity × Nat
  | .mk tag attrs cls _ _ children, ctr =>
    let r := cloneEntityList children (ctr + 1)
    (.mk tag attrs cls (defaultObject3D ctr) [] r.1, r.2)

def cloneEntityList : List Entity → Nat → List Entity × Nat
  | [], ctr => ([], ctr)
  | e :: rest, ctr =>
    let r1 := cloneEntity e ctr
    let r2 := cloneEntityList rest r1.2
    (r1.1 :: r2.1, r2.2)

end

/-- Lines 81-86: use the cloned template content when a template is
registered for the node's name and has content, a default `a-entity`
otherwise. -/
def resolveShell (env : Env) (name : String) (ctr : Nat) : Entity × Nat :=
  match env.templates name with
  | some t =>
    match t.firstElementChild with
    | some c => cloneEntity c ctr
    | none => newEntity ctr
  | none => newEntity ctr

/-- Lines 50-61: visibility policy for `SkinnedMesh` nodes, keyed on the
node's name (`Wolf3D_Hands` / `Wolf3D_Shirt` / default). -/
def applyVisibility (env : Env) (d : NodeData) : NodeData :=
  if d.type = "SkinnedMesh" then
    match d.name with
    | "Wolf3D_Hands" => { d with visible := env.hands }
    | "Wolf3D_Shirt" => { d with visible := env.shirt }
    | _ => { d with visible := env.head }
  else d

/-- Lines 106-108: if the rotation's axis order is not `YXZ`, recompute it
from the node's quaternion in `YXZ` order. -/
def normalizeRotation (env : Env) (d : NodeData) : NodeData :=
  if d.rotation.order = "YXZ" then d
  else
    let r := env.quatToEulerYXZ d.quaternion
    { d with rotation := ⟨r.1, r.2.1, r.2.2, "YXZ"⟩ }

/-- Lines 116-118: `matrixAutoUpdate = false`, `matrix.identity()`, and
`matrix.decompose(position, rotation, scale)`: position becomes zero, the
rotation angles become zero (order kept), scale becomes unit, and the
node's quaternion (synced from the rotation Euler) becomes the identity. -/
def decomposeIdentity (d : NodeData) : NodeData :=
  { d with
      matrixAutoUpdate := false
      position := Vec3.zero
      rotation := { d.rotation with x := 0, y := 0, z := 0 }
      quaternion := Quat.identity
      scale := Vec3.one }

/-- Lines 87-99 and 101-132, for a node that qualified: set the `name`
attribute, apply the root compensating transform when the node is named
`Scene`, append the child entities, add the class name, normalize the
rotation order, transfer the transform to the entity's group and reset the
node's own transform to the identity decomposition, attach the node under
`object3DMap`, and perform the name/uuid swap.  `d1` is the node data
after the visibility policy, `fresh` the uuid drawn for the node.  Returns
the produced entity together with the node's post-state. -/
def buildInflated (env : Env) (d1 : NodeData) (shell : Entity)
    (childrenEntities : List Entity) (remaining : List SceneNode)
    (fresh : Nat) : Entity × SceneNode :=
  let attrs1 := setAttr shell.attributes "name" d1.name
  let attrs2 :=
    if d1.name = "Scene" then
      setAttr (setAttr attrs1 "position" "0 -0.65 0") "rotation" "0 180 0"
    else attrs1
  let className :=
    stripNonWord (if d1.name = "" then toString d1.uuid else d1.name)
  let cls1 := classListAdd shell.classList className
  let d2 := normalizeRotation env d1
  let obj :=
    { shell.object3D with
        position := d2.position
        rotation := d2.rotation
        matrixNeedsUpdate := true
        name := d2.name
        uuid := d2.uuid }
  let d3 := { decomposeIdentity d2 with uuid := fresh }
  let finalNode : SceneNode := .node d3 remaining
  let map1 := shell.object3DMap ++ [(d2.type.toLower, finalNode)]
  (.mk shell.tagName attrs2 cls1 obj map1
    (shell.children ++ childrenEntities), finalNode)

mutual

/-- `_inflate(node)` (lines 49-135).  Returns the optional produced entity,
the post-state of the node, and the updated uuid counter. -/
def inflateAux (env : Env) : SceneNode → Nat → Option Entity × SceneNode × Nat
  | .node d cs, ctr =>
    let d1 := applyVisibility env d
    let rc := inflateList env cs ctr
    let childrenEntities := rc.1
    let remaining := rc.2.1
    let c1 := rc.2.2
    if d1.name ≠ "Scene" ∧ (env.templates d1.name).isNone ∧
        childrenEntities.isEmpty then
      (none, .node d1 remaining, c1)
    else
      let rs := resolveShell env d1.name c1
      let b := buildInflated env d1 rs.1 childrenEntities remaining rs.2
      (some b.1, b.2, rs.2 + 1)

/-- Lines 64-71: iterate over the snapshot of the children, collecting the
produced child entities in order; a child that produced an entity has been
reparented under that entity's group (`setObject3D`), so it is dropped from
the parent node's child list. -/
def inflateList (env : Env) :
    List SceneNode → Nat → List Entity × List SceneNode × Nat
  | [], ctr => ([], [], ctr)
  | c :: rest, ctr =>
    let r1 := inflateAux env c ctr
    let r2 := inflateList env rest r1.2.2
    match r1.1 with
    | some e => (e :: r2.1, r2.2.1, r2.2.2)
    | none => (r2.1, r1.2.1 :: r2.2.1, r2.2.2)

end

mutual

/-- The inclusion decision of line 74, read off the tree structure alone:
a node qualifies when it is named `Scene`, has a registered template, or
has a qualifying child. -/
def qualifies (env : Env) : SceneNode → Bool
  | .node d cs => d.name == "Scene" || (env.templates d.name).isSome ||
      anyQualifies env cs

/-- Some node of the list qualifies. -/
def anyQualifies (env : Env) : List SceneNode → Bool
  | [] => false
  | c :: rest => qualifies env c || anyQualifies env rest

end

/-- `m` is a strict descendant of the second node (a child, or a strict
descendant of a child). -/
inductive StrictDesc : SceneNode → SceneNode → Prop where
  | child {m : SceneNode} {d : NodeData} {cs : List SceneNode}
      (h : m ∈ cs) : StrictDesc m (.node d cs)
  | step {m p : SceneNode} {d : NodeData} {cs : List SceneNode}
      (h : p ∈ cs) (hmp : StrictDesc m p) : StrictDesc m (.node d cs)

mutual

/-- All identity tokens held by a node tree. -/
def nodeUuids : SceneNode → List Nat
  | .node d cs => d.uuid :: nodeListUuids cs

/-- All identity tokens held by a list of node trees. -/
def nodeListUuids : List SceneNode → List Nat
  | [] => []
  | c :: rest => nodeUuids c ++ nodeListUuids rest

end

mutual

/-- All identity tokens reachable from an entity: its group's uuid, the
uuids of the node trees attached in its `object3DMap`, and those of its
child entities. -/
def entityUuids : Entity → List Nat
  | .mk _ _ _ o m ch => o.uuid :: (mapUuids m ++ entityListUuids ch)

def mapUuids : List (String × SceneNode) → List Nat
  | [] => []
  | p :: rest => nodeUuids p.2 ++ mapUuids rest

def entityListUuids : List Entity → List Nat
  | [] => []
  | e :: rest => entityUuids e ++ entityListUuids rest

end

/-- All identity tokens present after an inflation run: those reachable
from the produced entity when there is one (the post-state of the inflated
node is attached inside it), those of the post-state of the node otherwise. -/
def runUuids (r : Option Entity × SceneNode × Nat) : List Nat :=
  match r.1 with
  | some e => entityUuids e
  | none => nodeUuids r.2.1

/-! ### Small unfolding lemmas -/

@[simp] theorem SceneNode.data_node (d : NodeData) (cs : List SceneNode) :
    (SceneNode.node d cs).data = d := rfl

@[simp] theorem SceneNode.children_node (d : NodeData) (cs : List SceneNode) :
    (SceneNode.node d cs).children = cs := rfl

@[simp] theorem Entity.tagName_mk (t a c o m ch) :
    (Entity.mk t a c o m ch).tagName = t := rfl

@[simp] theorem Entity.attributes_mk (t a c o m ch) :
    (Entity.mk t a c o m ch).attributes = a := rfl

@[simp] theorem Entity.classList_mk (t a c o m ch) :
    (Entity.mk t a c o m ch).classList = c := rfl

@[simp] theorem Entity.object3D_mk (t a c o m ch) :
    (Entity.mk t a c o m ch).object3D = o := rfl

@[simp] theorem Entity.object3DMap_mk (t a c o m ch) :
    (Entity.mk t a c o m ch).object3DMap = m := rfl

@[simp] theorem Entity.children_mk (t a c o m ch) :
    (Entity.mk t a c o m ch).children = ch := rfl

theorem applyVisibility_fields (env : Env) (d : NodeData) :
    (applyVisibility env d).name = d.name ∧
    (applyVisibility env d).type = d.type ∧
    (applyVisibility env d).position = d.position ∧
    (applyVisibility env d).rotation = d.rotation ∧
    (applyVisibility env d).quaternion = d.quaternion ∧
    (applyVisibility env d).scale = d.scale ∧
    (applyVisibility env d).matrixAutoUpdate = d.matrixAutoUpdate ∧
    (applyVisibility env d).uuid = d.uuid := by
  unfold applyVisibility
  split
  · split <;> simp
  · simp

@[simp] theorem applyVisibility_name (env : Env) (d : NodeData) :
    (applyVisibility env d).name = d.name := (applyVisibility_fields env d).1

@[simp] theorem applyVisibility_uuid (env : Env) (d : NodeData) :
    (applyVisibility env d).uuid = d.uuid :=
  (applyVisibility_fields env d).2.2.2.2.2.2.2

@[simp] theorem applyVisibility_position (env : Env) (d : NodeData) :
    (applyVisibility env d).position = d.position :=
  (applyVisibility_fields env d).2.2.1

@[simp] theorem applyVisibility_rotation (env : Env) (d : NodeData) :
    (applyVisibility env d).rotation = d.rotation :=
  (applyVisibility_fields env d).2.2.2.1

@[simp] theorem applyVisibility_scale (env : Env) (d : NodeData) :
    (applyVisibility env d).scale = d.scale :=
  (applyVisibility_fields env d).2.2.2.2.2.1

@[simp] theorem applyVisibility_type (env : Env) (d : NodeData) :
    (applyVisibility env d).type = d.type := (applyVisibility_fields env d).2.1

theorem normalizeRotation_fields (env : Env) (d : NodeData) :
    (normalizeRotation env d).name = d.name ∧
    (normalizeRotation env d).type = d.type ∧
    (normalizeRotation env d).visible = d.visible ∧
    (normalizeRotation env d).position = d.position ∧
    (normalizeRotation env d).quaternion = d.quaternion ∧
    (normalizeRotation env d).scale = d.scale ∧
    (normalizeRotation env d).matrixAutoUpdate = d.matrixAutoUpdate ∧
    (normalizeRotation env d).uuid = d.uuid := by
  unfold normalizeRotation
  split <;> simp

@[simp] theorem normalizeRotation_name (env : Env) (d : NodeData) :
    (normalizeRotation env d).name = d.name := (normalizeRotation_fields env d).1

@[simp] theorem normalizeRotation_uuid (env : Env) (d : NodeData) :
    (normalizeRotation env d).uuid = d.uuid :=
  (normalizeRotation_fields env d).2.2.2.2.2.2.2

@[simp] theorem normalizeRotation_position (env : Env) (d : NodeData) :
    (normalizeRotation env d).position = d.position :=
  (normalizeRotation_fields env d).2.2.2.1

@[simp] theorem normalizeRotation_type (env : Env) (d : NodeData) :
    (normalizeRotation env d).type = d.type :=
  (normalizeRotation_fields env d).2.1

theorem normalizeRotation_yxz (env : Env) (d : NodeData)
    (h : d.rotation.order = "YXZ") : normalizeRotation env d = d := by
  unfold normalizeRotation
  simp [h]

/-- The shell produced by `resolveShell` always has a fresh default group
(the template clone is uninitialized markup; the default entity is new). -/
theorem resolveShell_object3D (env : Env) (name : String) (ctr : Nat) :
    (resolveShell env name ctr).1.object3D = defaultObject3D ctr := by
  unfold resolveShell
  split
  · split
    · rename_i c _
      rcases c with ⟨t, a, cl, o, m, ch⟩
      simp [cloneEntity]
    · simp [newEntity]
  · simp [newEntity]

/-- The shell's `object3DMap` starts out empty. -/
theorem resolveShell_object3DMap (env : Env) (name : String) (ctr : Nat) :
    (resolveShell env name ctr).1.object3DMap = [] := by
  unfold resolveShell
  split
  · split
    · rename_i c _
      rcases c with ⟨t, a, cl, o, m, ch⟩
      simp [cloneEntity]
    · simp [newEntity]
  · simp [newEntity]

theorem inflateList_nil (env : Env) (ctr : Nat) :
    inflateList env [] ctr = ([], [], ctr) := by
  simp [inflateList]

theorem inflateList_cons (env : Env) (c : SceneNode) (rest : List SceneNode)
    (ctr : Nat) :
    inflateList env (c :: rest) ctr =
      (let r1 := inflateAux env c ctr
       let r2 := inflateList env rest r1.2.2
       match r1.1 with
       | some e => (e :: r2.1, r2.2.1, r2.2.2)
       | none => (r2.1, r1.2.1 :: r2.2.1, r2.2.2)) := by
  simp [inflateList]

theorem inflateAux_node (env : Env) (d : NodeData) (cs : List SceneNode)
    (ctr : Nat) :
    inflateAux env (SceneNode.node d cs) ctr =
      (let d1 := applyVisibility env d
       let rc := inflateList env cs ctr
       if d1.name ≠ "Scene" ∧ (env.templates d1.name).isNone ∧
           rc.1.isEmpty then
         (none, SceneNode.node d1 rc.2.1, rc.2.2)
       else
         let rs := resolveShell env d1.name rc.2.2
         let b := buildInflated env d1 rs.1 rc.1 rc.2.1 rs.2
         (some b.1, b.2, rs.2 + 1)) := by
  simp [inflateAux]

/-- The pruning branch (lines 74-77). -/
theorem inflateAux_pruned (env : Env) (d : NodeData) (cs : List SceneNode)
    (ctr : Nat) (h1 : d.name ≠ "Scene") (h2 : env.templates d.name = none)
    (h3 : (inflateList env cs ctr).1 = []) :
    inflateAux env (SceneNode.node d cs) ctr =
      (none, SceneNode.node (applyVisibility env d)
        (inflateList env cs ctr).2.1, (inflateList env cs ctr).2.2) := by
  rw [inflateAux_node]
  simp only [applyVisibility_name]
  rw [if_pos]
  exact ⟨h1, by simp [h2], by simp [h3]⟩

/-- The inclusion branch (lines 79-134). -/
theorem inflateAux_included (env : Env) (d : NodeData) (cs : List SceneNode)
    (ctr : Nat)
    (h : ¬(d.name ≠ "Scene" ∧ env.templates d.name = none ∧
        (inflateList env cs ctr).1 = [])) :
    inflateAux env (SceneNode.node d cs) ctr =
      (let rc := inflateList env cs ctr
       let rs := resolveShell env d.name rc.2.2
       let b := buildInflated env (applyVisibility env d) rs.1 rc.1 rc.2.1 rs.2
       (some b.1, b.2, rs.2 + 1)) := by
  rw [inflateAux_node]
  simp only [applyVisibility_name]
  rw [if_neg]
  intro hc
  exact h ⟨hc.1, by simpa using hc.2.1, by simpa using hc.2.2⟩

@[simp] theorem nodeUuids_node (d : NodeData) (cs : List SceneNode) :
    nodeUuids (SceneNode.node d cs) = d.uuid :: nodeListUuids cs := by
  simp [nodeUuids]

@[simp] theorem nodeListUuids_nil : nodeListUuids [] = [] := by
  simp [nodeListUuids]

@[simp] theorem nodeListUuids_cons (c : SceneNode) (rest : List SceneNode) :
    nodeListUuids (c :: rest) = nodeUuids c ++ nodeListUuids rest := by
  simp [nodeListUuids]

@[simp] theorem entityUuids_mk (t a c o m ch) :
    entityUuids (Entity.mk t a c o m ch) =
      o.uuid :: (mapUuids m ++ entityListUuids ch) := by
  simp [entityUuids]

@[simp] theorem mapUuids_nil : mapUuids [] = [] := by
  simp [mapUuids]

@[simp] theorem mapUuids_cons (p : String × SceneNode)
    (rest : List (String × SceneNode)) :
    mapUuids (p :: rest) = nodeUuids p.2 ++ mapUuids rest := by
  simp [mapUuids]

@[simp] theorem entityListUuids_nil : entityListUuids [] = [] := by
  simp [entityListUuids]

@[simp] theorem entityListUuids_cons (e : Entity) (rest : List Entity) :
    entityListUuids (e :: rest) = entityUuids e ++ entityListUuids rest := by
  simp [entityListUuids]

/-! ### Mutual induction wrappers -/

/-- Mutual induction over `inflateAux` / `inflateList`. -/
theorem inflate_ind (env : Env) {M1 : SceneNode → Nat → Prop}
    {M2 : List SceneNode → Nat → Prop}
    (hnode : ∀ d cs ctr, M2 cs ctr → M1 (SceneNode.node d cs) ctr)
    (hnil : ∀ ctr, M2 [] ctr)
    (hcons : ∀ c rest ctr, M1 c ctr →
      M2 rest (inflateAux env c ctr).2.2 → M2 (c :: rest) ctr) :
    (∀ n ctr, M1 n ctr) ∧ (∀ cs ctr, M2 cs ctr) :=
  ⟨fun n ctr => inflateAux.induct env M1 M2
      (fun d cs ctr _ ih => hnode d cs ctr ih)
      (fun d cs ctr _ ih => hnode d cs ctr ih)
      hnil
      (fun c rest ctr _ _ ih1 ih2 => hcons c rest ctr ih1 ih2)
      (fun c rest ctr _ ih1 ih2 => hcons c rest ctr ih1 ih2)
      n ctr,
   fun cs ctr => inflateList.induct env M1 M2
      (fun d cs ctr _ ih => hnode d cs ctr ih)
      (fun d cs ctr _ ih => hnode d cs ctr ih)
      hnil
      (fun c rest ctr _ _ ih1 ih2 => hcons c rest ctr ih1 ih2)
      (fun c rest ctr _ ih1 ih2 => hcons c rest ctr ih1 ih2)
      cs ctr⟩

/-- Mutual induction over `cloneEntity` / `cloneEntityList`. -/
theorem clone_ind {M1 : Entity → Nat → Prop} {M2 : List Entity → Nat → Prop}
    (hmk : ∀ t a c o m ch ctr, M2 ch (ctr + 1) →
      M1 (Entity.mk t a c o m ch) ctr)
    (hnil : ∀ ctr, M2 [] ctr)
    (hcons : ∀ e rest ctr, M1 e ctr →
      M2 rest (cloneEntity e ctr).2 → M2 (e :: rest) ctr) :
    (∀ e ctr, M1 e ctr) ∧ (∀ es ctr, M2 es ctr) :=
  ⟨fun e ctr => cloneEntity.induct M1 M2 hmk hnil hcons e ctr,
   fun es ctr => cloneEntityList.induct M1 M2 hmk hnil hcons es ctr⟩

/-! ### Counter and uuid range lemmas for shells -/

theorem cloneEntity_step (e : Entity) (ctr : Nat) :
    cloneEntity e ctr =
      (Entity.mk e.tagName e.attributes e.classList (defaultObject3D ctr) []
        (cloneEntityList e.children (ctr + 1)).1,
       (cloneEntityList e.children (ctr + 1)).2) := by
  rcases e with ⟨t, a, c, o, m, ch⟩
  simp [cloneEntity]

theorem cloneEntityList_nil (ctr : Nat) : cloneEntityList [] ctr = ([], ctr) := by
  simp [cloneEntityList]

theorem cloneEntityList_cons (e : Entity) (rest : List Entity) (ctr : Nat) :
    cloneEntityList (e :: rest) ctr =
      ((cloneEntity e ctr).1 ::
        (cloneEntityList rest (cloneEntity e ctr).2).1,
       (cloneEntityList rest (cloneEntity e ctr).2).2) := by
  simp [cloneEntityList]

/-- Every uuid generated inside a clone lies in the consumed counter range,
the clone consumes at least one counter value, and the clone's uuids are
pairwise distinct. -/
theorem cloneEntity_uuids :
    (∀ e ctr, ctr < (cloneEntity e ctr).2 ∧
      (∀ u ∈ entityUuids (cloneEntity e ctr).1,
        ctr ≤ u ∧ u < (cloneEntity e ctr).2) ∧
      (entityUuids (cloneEntity e ctr).1).Nodup) ∧
    (∀ es ctr, ctr ≤ (cloneEntityList es ctr).2 ∧
      (∀ u ∈ entityListUuids (cloneEntityList es ctr).1,
        ctr ≤ u ∧ u < (cloneEntityList es ctr).2) ∧
      (entityListUuids (cloneEntityList es ctr).1).Nodup) := by
  refine clone_ind ?_ ?_ ?_
  · intro t a c o m ch ctr ih
    obtain ⟨ihle, ihmem, ihnd⟩ := ih
    rw [cloneEntity_step]
    refine ⟨by simpa using by omega, ?_, ?_⟩
    · intro u hu
      simp only [entityUuids_mk, mapUuids_nil, List.nil_append,
        Entity.children_mk, defaultObject3D, List.mem_cons] at hu
      rcases hu with rfl | hu
      · simp only [Entity.children_mk]
        exact ⟨le_refl _, by omega⟩
      · have := ihmem u (by simpa using hu)
        simp only [Entity.children_mk]
        omega
    · simp only [entityUuids_mk, mapUuids_nil, List.nil_append,
        Entity.children_mk, defaultObject3D, List.nodup_cons]
      refine ⟨fun hmem => ?_, ihnd⟩
      have := ihmem ctr hmem
      omega
  · intro ctr
    rw [cloneEntityList_nil]
    simp
  · intro e rest ctr ih1 ih2
    obtain ⟨ih1lt, ih1mem, ih1nd⟩ := ih1
    obtain ⟨ih2le, ih2mem, ih2nd⟩ := ih2
    rw [cloneEntityList_cons]
    refine ⟨by omega, ?_, ?_⟩
    · intro u hu
      simp only [entityListUuids_cons, List.mem_append] at hu
      rcases hu with hu | hu
      · have := ih1mem u hu
        omega
      · have := ih2mem u hu
        omega
    · simp only [entityListUuids_cons]
      refine List.Nodup.append ih1nd ih2nd (List.disjoint_left.mpr ?_)
      intro u hu1 hu2
      have h1 := ih1mem u hu1
      have h2 := ih2mem u hu2
      omega

/-- The shell consumes at least one counter value, and every uuid inside it
lies in the consumed range; the shell's uuids are pairwise distinct. -/
theorem resolveShell_uuids (env : Env) (name : String) (ctr : Nat) :
    ctr < (resolveShell env name ctr).2 ∧
    (∀ u ∈ entityUuids (resolveShell env name ctr).1,
      ctr ≤ u ∧ u < (resolveShell env name ctr).2) ∧
    (entityUuids (resolveShell env name ctr).1).Nodup := by
  unfold resolveShell
  split
  · split
    · exact ⟨(cloneEntity_uuids.1 _ _).1, (cloneEntity_uuids.1 _ _).2.1,
        (cloneEntity_uuids.1 _ _).2.2⟩
    · simp [newEntity, defaultObject3D]
  · simp [newEntity, defaultObject3D]

/-- The counter never decreases. -/
theorem inflate_counter_mono (env : Env) :
    (∀ n ctr, ctr ≤ (inflateAux env n ctr).2.2) ∧
    (∀ cs ctr, ctr ≤ (inflateList env cs ctr).2.2) := by
  refine inflate_ind env ?_ ?_ ?_
  · intro d cs ctr ih
    rw [inflateAux_node]
    simp only []
    split
    · exact ih
    · have h1 := (resolveShell_uuids env (applyVisibility env d).name
        (inflateList env cs ctr).2.2).1
      simp only []
      omega
  · intro ctr
    rw [inflateList_nil]
  · intro c rest ctr ih1 ih2
    rw [inflateList_cons]
    simp only []
    split
    all_goals
      show ctr ≤ (inflateList env rest (inflateAux env c ctr).2.2).2.2
      omega

/-! ### The inclusion decision -/

/-- Line 74 as an iff: an entity is produced exactly when the node is named
`Scene`, a template is registered for its name, or some child produced an
entity. -/
theorem inflate_produces_iff (env : Env) (d : NodeData) (cs : List SceneNode)
    (ctr : Nat) :
    ((inflateAux env (SceneNode.node d cs) ctr).1).isSome = true ↔
      d.name = "Scene" ∨ (env.templates d.name).isSome = true ∨
        (inflateList env cs ctr).1 ≠ [] := by
  rw [inflateAux_node]
  simp only []
  split
  · rename_i h
    simp only [applyVisibility_name, Option.isNone_iff_eq_none,
      List.isEmpty_iff] at h
    simp [h.1, h.2.1, h.2.2]
  · rename_i h
    simp only [applyVisibility_name, Option.isNone_iff_eq_none,
      List.isEmpty_iff] at h
    push_neg at h
    simp only [Option.isSome_some, true_iff]
    by_cases h1 : d.name = "Scene"
    · exact Or.inl h1
    · by_cases h2 : env.templates d.name = none
      · exact Or.inr (Or.inr (h h1 h2))
      · refine Or.inr (Or.inl ?_)
        simp [Option.isSome_iff_ne_none, h2]

/-- `_inflate` produces an entity exactly on the nodes satisfying the
structural predicate `qualifies`, independently of the uuid counter. -/
theorem inflate_isSome_eq_qualifies (env : Env) :
    (∀ n ctr, ((inflateAux env n ctr).1).isSome = qualifies env n) ∧
    (∀ cs ctr, ((inflateList env cs ctr).1 ≠ [] ↔
      anyQualifies env cs = true)) := by
  refine inflate_ind env ?_ ?_ ?_
  · intro d cs ctr ih
    rw [Bool.eq_iff_iff, inflate_produces_iff]
    simp only [qualifies, Bool.or_eq_true, beq_iff_eq]
    rw [ih, or_assoc]
  · intro ctr
    rw [inflateList_nil]
    simp [anyQualifies]
  · intro c rest ctr ih1 ih2
    rw [inflateList_cons]
    simp only []
    split
    · rename_i e heq
      simp only [anyQualifies, Bool.or_eq_true]
      have : qualifies env c = true := by rw [← ih1, heq, Option.isSome_some]
      simp [this]
    · rename_i heq
      have h1 : qualifies env c = false := by
        rw [← ih1, heq, Option.isSome_none]
      have h2 : anyQualifies env (c :: rest) = anyQualifies env rest := by
        simp [anyQualifies, h1]
      rw [h2]
      exact ih2

/-- A pruned subtree consumes no uuid counter value. -/
theorem inflate_pruned_counter (env : Env) :
    (∀ n ctr, (inflateAux env n ctr).1 = none →
      (inflateAux env n ctr).2.2 = ctr) ∧
    (∀ cs ctr, (inflateList env cs ctr).1 = [] →
      (inflateList env cs ctr).2.2 = ctr) := by
  refine inflate_ind env ?_ ?_ ?_
  · intro d cs ctr ih
    rw [inflateAux_node]
    simp only []
    split
    · rename_i h
      intro _
      simp only [applyVisibility_name, Option.isNone_iff_eq_none,
        List.isEmpty_iff] at h
      exact ih h.2.2
    · intro h
      simp at h
  · intro ctr _
    rw [inflateList_nil]
  · intro c rest ctr ih1 ih2
    rw [inflateList_cons]
    simp only []
    split
    · rename_i e heq
      intro h
      simp at h
    · rename_i heq
      intro h
      show (inflateList env rest (inflateAux env c ctr).2.2).2.2 = ctr
      have hc := ih1 heq
      have h2 : (inflateList env rest (inflateAux env c ctr).2.2).1 = [] := by
        simpa using h
      rw [ih2 h2, hc]

/-- Every child either produces an entity or stays attached: the counts
add up to the snapshot's length. -/
theorem inflateList_length (env : Env) (cs : List SceneNode) :
    ∀ ctr, (inflateList env cs ctr).1.length +
      (inflateList env cs ctr).2.1.length = cs.length := by
  induction cs with
  | nil => intro ctr; rw [inflateList_nil]; simp
  | cons c rest ih =>
    intro ctr
    rw [inflateList_cons]
    simp only []
    split
    · rename_i e heq
      show (e :: (inflateList env rest (inflateAux env c ctr).2.2).1).length +
        (inflateList env rest (inflateAux env c ctr).2.2).2.1.length =
          (c :: rest).length
      simp only [List.length_cons]
      have := ih (inflateAux env c ctr).2.2
      omega
    · rename_i heq
      show (inflateList env rest (inflateAux env c ctr).2.2).1.length +
        ((inflateAux env c ctr).2.1 ::
          (inflateList env rest (inflateAux env c ctr).2.2).2.1).length =
          (c :: rest).length
      simp only [List.length_cons]
      have := ih (inflateAux env c ctr).2.2
      omega

@[simp] theorem applyVisibility_quaternion (env : Env) (d : NodeData) :
    (applyVisibility env d).quaternion = d.quaternion :=
  (applyVisibility_fields env d).2.2.2.2.1

theorem normalizeRotation_applyVisibility_rotation (env : Env) (d : NodeData) :
    (normalizeRotation env (applyVisibility env d)).rotation =
      (normalizeRotation env d).rotation := by
  by_cases h : d.rotation.order = "YXZ" <;>
    simp [normalizeRotation, h, applyVisibility_rotation,
      applyVisibility_quaternion]

theorem lookup_map_replace (k v : String) :
    ∀ attrs : List (String × String),
      attrs.any (fun p => p.1 == k) = true →
      lookupAttr (attrs.map (fun p => if p.1 == k then (k, v) else p)) k =
        some v
  | [], h => by simp at h
  | p :: rest, h => by
    by_cases hp : (p.1 == k) = true
    · have hp1 : p.1 = k := by simpa using hp
      simp [lookupAttr, hp1]
    · have hpf : (p.1 == k) = false := by simpa using hp
      have hp1 : ¬p.1 = k := by simpa using hp
      have h2 : rest.any (fun p => p.1 == k) = true := by
        simpa [List.any_cons, hpf] using h
      have hrec := lookup_map_replace k v rest h2
      simp only [beq_iff_eq] at hrec
      simp [lookupAttr, hp1, hrec]

theorem lookup_append_new (k v : String) :
    ∀ attrs : List (String × String),
      attrs.any (fun p => p.1 == k) = false →
      lookupAttr (attrs ++ [(k, v)]) k = some v
  | [], _ => by simp [lookupAttr]
  | p :: rest, h => by
    rw [List.any_cons, Bool.or_eq_false_iff] at h
    have hp1 : ¬p.1 = k := by simpa using h.1
    have hrec := lookup_append_new k v rest h.2
    simp [lookupAttr, hp1, hrec]

theorem lookup_map_replace_other (k v k2 : String) (h : k2 ≠ k) :
    ∀ attrs : List (String × String),
      lookupAttr (attrs.map (fun p => if p.1 == k then (k, v) else p)) k2 =
        lookupAttr attrs k2
  | [] => by simp [lookupAttr]
  | p :: rest => by
    have hrec := lookup_map_replace_other k v k2 h rest
    by_cases hp : (p.1 == k) = true
    · have hp1 : p.1 = k := by simpa using hp
      have hk2 : ¬k = k2 := Ne.symm h
      have hpk2 : ¬p.1 = k2 := by rw [hp1]; exact hk2
      simp only [beq_iff_eq] at hrec
      simp [lookupAttr, hp1, hk2, hpk2, hrec]
    · have hp1 : ¬p.1 = k := by simpa using hp
      by_cases hp2 : p.1 = k2
      · simp [lookupAttr, hp1, hp2, h]
      · simp only [beq_iff_eq] at hrec
        simp [lookupAttr, hp1, hp2, hrec]

theorem lookup_append_new_other (k v k2 : String) (h : k2 ≠ k) :
    ∀ attrs : List (String × String),
      lookupAttr (attrs ++ [(k, v)]) k2 = lookupAttr attrs k2
  | [] => by simp [lookupAttr, Ne.symm h]
  | p :: rest => by
    have hrec := lookup_append_new_other k v k2 h rest
    by_cases hp2 : p.1 = k2
    · simp [lookupAttr, hp2]
    · simp [lookupAttr, hp2, hrec]

/-- `setAttribute` followed by `getAttribute` of the same key. -/
theorem lookupAttr_setAttr (attrs : List (String × String)) (k v : String) :
    lookupAttr (setAttr attrs k v) k = some v := by
  unfold setAttr
  split
  · rename_i hany
    exact lookup_map_replace k v attrs hany
  · rename_i hany
    exact lookup_append_new k v attrs (Bool.eq_false_iff.mpr hany)

/-- `setAttribute` leaves other keys untouched. -/
theorem lookupAttr_setAttr_other (attrs : List (String × String))
    (k v k2 : String) (h : k2 ≠ k) :
    lookupAttr (setAttr attrs k v) k2 = lookupAttr attrs k2 := by
  unfold setAttr
  split
  · exact lookup_map_replace_other k v k2 h attrs
  · exact lookup_append_new_other k v k2 h attrs

/-- Full characterization of the result on a node that produced an entity:
the entity's state, the node's post-state, and the counter. -/
theorem inflate_some_spec (env : Env) (d : NodeData) (cs : List SceneNode)
    (ctr : Nat) (e : Entity)
    (h : (inflateAux env (SceneNode.node d cs) ctr).1 = some e) :
    e.object3D.position = d.position ∧
    e.object3D.rotation = (normalizeRotation env d).rotation ∧
    e.object3D.scale = Vec3.one ∧
    e.object3D.matrixNeedsUpdate = true ∧
    e.object3D.name = d.name ∧
    e.object3D.uuid = d.uuid ∧
    e.tagName =
      (resolveShell env d.name (inflateList env cs ctr).2.2).1.tagName ∧
    e.children =
      (resolveShell env d.name (inflateList env cs ctr).2.2).1.children ++
        (inflateList env cs ctr).1 ∧
    e.attributes =
      (let base := setAttr (resolveShell env d.name
          (inflateList env cs ctr).2.2).1.attributes "name" d.name
       if d.name = "Scene" then
         setAttr (setAttr base "position" "0 -0.65 0") "rotation" "0 180 0"
       else base) ∧
    (inflateAux env (SceneNode.node d cs) ctr).2.1 =
      SceneNode.node
        { decomposeIdentity (normalizeRotation env (applyVisibility env d))
            with uuid := (resolveShell env d.name
              (inflateList env cs ctr).2.2).2 }
        (inflateList env cs ctr).2.1 ∧
    (inflateAux env (SceneNode.node d cs) ctr).2.2 =
      (resolveShell env d.name (inflateList env cs ctr).2.2).2 + 1 := by
  have hcond : ¬(d.name ≠ "Scene" ∧ env.templates d.name = none ∧
      (inflateList env cs ctr).1 = []) := by
    intro hc
    rw [inflateAux_pruned env d cs ctr hc.1 hc.2.1 hc.2.2] at h
    simp at h
  have heq := inflateAux_included env d cs ctr hcond
  rw [heq] at h
  simp only [Option.some.injEq] at h
  subst h
  rw [heq]
  simp only [buildInflated, resolveShell_object3D, resolveShell_object3DMap,
    Entity.object3D_mk, Entity.attributes_mk, Entity.tagName_mk,
    Entity.children_mk, defaultObject3D]
  repeat' apply And.intro
  all_goals first
    | rfl
    | rw [normalizeRotation_applyVisibility_rotation]
    | simp

/-! ### Further helper lemmas -/

/-- A `Scene`-named node that produced an entity carries the compensating
transform attributes (lines 89-95). -/
theorem scene_attrs_of_some (env : Env) (d : NodeData) (cs : List SceneNode)
    (ctr : Nat) (e : Entity) (hd : d.name = "Scene")
    (h : (inflateAux env (SceneNode.node d cs) ctr).1 = some e) :
    getAttr e "position" = some "0 -0.65 0" ∧
    getAttr e "rotation" = some "0 180 0" := by
  obtain ⟨-, -, -, -, -, -, -, -, hattrs, -, -⟩ :=
    inflate_some_spec env d cs ctr e h
  simp only [hd, if_pos] at hattrs
  unfold getAttr
  rw [hattrs]
  constructor
  · rw [lookupAttr_setAttr_other _ _ _ _ (by decide), lookupAttr_setAttr]
  · rw [lookupAttr_setAttr]

theorem anyQualifies_of_mem (env : Env) :
    ∀ {cs : List SceneNode} {c : SceneNode}, c ∈ cs →
      qualifies env c = true → anyQualifies env cs = true := by
  intro cs
  induction cs with
  | nil => intro c h; cases h
  | cons c0 rest ih =>
    intro c hmem hq
    rcases List.mem_cons.mp hmem with rfl | hmem'
    · simp [anyQualifies, hq]
    · simp [anyQualifies, ih hmem' hq]

/-- Qualification propagates from any strict descendant to its ancestors. -/
theorem qualifies_of_strictDesc (env : Env) {m n : SceneNode}
    (hdesc : StrictDesc m n) (hq : qualifies env m = true) :
    qualifies env n = true := by
  induction hdesc with
  | child hmem => simp [qualifies, anyQualifies_of_mem env hmem hq]
  | step hmem hmp ih => simp [qualifies, anyQualifies_of_mem env hmem ih]

/-- A qualifying member of the snapshot contributes an entity to the
collected list. -/
theorem inflateList_mem_of_qualifies (env : Env) {c : SceneNode} :
    ∀ (cs : List SceneNode) (ctr : Nat), c ∈ cs →
      qualifies env c = true →
      ∃ e ∈ (inflateList env cs ctr).1, ∃ ctr0,
        (inflateAux env c ctr0).1 = some e := by
  intro cs
  induction cs with
  | nil => intro ctr h; cases h
  | cons c0 rest ih =>
    intro ctr hmem hq
    rw [inflateList_cons]
    simp only []
    rcases List.mem_cons.mp hmem with rfl | hmem'
    · have hsome : ((inflateAux env c ctr).1).isSome = true := by
        rw [(inflate_isSome_eq_qualifies env).1 c ctr, hq]
      obtain ⟨e, he⟩ := Option.isSome_iff_exists.mp hsome
      split
      · rename_i e' heq
        refine ⟨e', List.mem_cons_self _ _, ctr, heq⟩
      · rename_i heq
        rw [heq] at he
        cases he
    · obtain ⟨e, hemem, ctr0, h0⟩ :=
        ih (inflateAux env c0 ctr).2.2 hmem' hq
      split
      · rename_i e' heq
        exact ⟨e, List.mem_cons_of_mem _ hemem, ctr0, h0⟩
      · rename_i heq
        exact ⟨e, hemem, ctr0, h0⟩

/-! ### Concrete fixtures -/

/-- An environment with no registered templates and all visibility flags
on; the quaternion conversion is immaterial for these fixtures. -/
def envNone : Env :=
  { templates := fun _ => none
    hands := true
    shirt := true
    head := true
    quatToEulerYXZ := fun _ => (0, 0, 0) }

/-- Node data with identity transform and a `YXZ` rotation order. -/
def mkData (name type : String) (uuid : Nat) : NodeData :=
  { name := name
    type := type
    visible := true
    position := Vec3.zero
    rotation := ⟨0, 0, 0, "YXZ"⟩
    quaternion := Quat.identity
    scale := Vec3.one
    matrixAutoUpdate := true
    uuid := uuid }

/-! ### C1 -/

/-- C1: for every `SceneNode` passed to `inflate`, the call returns an
`InflatedEntity` if and only if the node is named `Scene`, a template
override is registered for its name, or at least one of its children
produced an `InflatedEntity`; otherwise it returns none. -/
theorem claim_C1_inclusion_policy (env : Env) (d : NodeData)
    (cs : List SceneNode) (ctr : Nat) :
    ((inflateAux env (SceneNode.node d cs) ctr).1).isSome = true ↔
      d.name = "Scene" ∨ (env.templates d.name).isSome = true ∨
        (inflateList env cs ctr).1 ≠ [] :=
  inflate_produces_iff env d cs ctr

/-! ### C5 -/

/-- C5: inflating a node named `Scene` always returns an entity, even with
zero children and no registered template, and the returned entity carries
the compensating transform attributes `position = 0 -0.65 0` and
`rotation = 0 180 0`, whether the shell came from a template or from
default construction (the environment is arbitrary). -/
theorem claim_C5_root_always_included (env : Env) (d : NodeData) (ctr : Nat)
    (h : d.name = "Scene") :
    ((inflateAux env (SceneNode.node d []) ctr).1).isSome = true ∧
    (∀ cs, (inflateAux env (SceneNode.node d cs) ctr).1.map
        (fun e => (getAttr e "position", getAttr e "rotation")) =
      some (some "0 -0.65 0", some "0 180 0")) := by
  constructor
  · rw [inflate_produces_iff]
    exact Or.inl h
  · intro cs
    have hsome : ((inflateAux env (SceneNode.node d cs) ctr).1).isSome = true := by
      rw [inflate_produces_iff]
      exact Or.inl h
    obtain ⟨e, he⟩ := Option.isSome_iff_exists.mp hsome
    rw [he, Option.map_some']
    obtain ⟨h1, h2⟩ := scene_attrs_of_some env d cs ctr e h he
    rw [h1, h2]

/-- Witness for C5 at a concrete root. -/
theorem claim_C5_witness :
    (mkData "Scene" "Group" 0).name = "Scene" ∧
    (((inflateAux envNone (SceneNode.node (mkData "Scene" "Group" 0) []) 1).1).isSome = true ∧
     (∀ cs, (inflateAux envNone (SceneNode.node (mkData "Scene" "Group" 0) cs) 1).1.map
        (fun e => (getAttr e "position", getAttr e "rotation")) =
      some (some "0 -0.65 0", some "0 180 0"))) :=
  ⟨rfl, claim_C5_root_always_included envNone (mkData "Scene" "Group" 0) 1 rfl⟩

/-! ### C10 -/

/-- C10: root recognition is purely name-based.  A node named `Scene`
sitting as a child of some other node (so not the hierarchy root of the
call) still forces its parent to produce an entity, and the entity built
for it carries the fixed compensating transform attributes; no structural
root check is performed. -/
theorem claim_C10_scene_by_name_at_depth (env : Env) (d dm : NodeData)
    (cs csm : List SceneNode) (ctr : Nat)
    (hmem : SceneNode.node dm csm ∈ cs) (hname : dm.name = "Scene") :
    ((inflateAux env (SceneNode.node d cs) ctr).1).isSome = true ∧
    ∃ e ∈ (inflateList env cs ctr).1,
      getAttr e "position" = some "0 -0.65 0" ∧
      getAttr e "rotation" = some "0 180 0" := by
  have hq : qualifies env (SceneNode.node dm csm) = true := by
    simp [qualifies, hname]
  obtain ⟨e, hemem, ctr0, h0⟩ :=
    inflateList_mem_of_qualifies env cs ctr hmem hq
  constructor
  · rw [inflate_produces_iff]
    refine Or.inr (Or.inr ?_)
    intro hnil
    rw [hnil] at hemem
    cases hemem
  · exact ⟨e, hemem, scene_attrs_of_some env dm csm ctr0 e hname h0⟩

/-- Witness for C10: a `Scene`-named node one level below the call's root. -/
theorem claim_C10_witness :
    SceneNode.node (mkData "Scene" "Group" 2) [] ∈
      [SceneNode.node (mkData "Scene" "Group" 2) []] ∧
    (mkData "Scene" "Group" 2).name = "Scene" ∧
    (((inflateAux envNone (SceneNode.node (mkData "Armature" "Bone" 1)
        [SceneNode.node (mkData "Scene" "Group" 2) []]) 3).1).isSome = true ∧
     ∃ e ∈ (inflateList envNone
        [SceneNode.node (mkData "Scene" "Group" 2) []] 3).1,
       getAttr e "position" = some "0 -0.65 0" ∧
       getAttr e "rotation" = some "0 180 0") :=
  ⟨List.mem_cons_self _ _, rfl,
   claim_C10_scene_by_name_at_depth envNone (mkData "Armature" "Bone" 1)
     (mkData "Scene" "Group" 2) _ [] 3 (List.mem_cons_self _ _) rfl⟩

/-! ### C2 -/

/-- C2 counterexample: the claim asserts the returned entity's transform
equals the node's pre-inflation transform including its scale; but the
code copies only position and rotation (lines 112-113), never scale, so a
`Scene` node with scale `(2,2,2)` yields an entity with unit scale. -/
theorem claim_C2_counterexample :
    ((inflateAux envNone
        (SceneNode.node { mkData "Scene" "Group" 0 with
          scale := ⟨2, 2, 2⟩ } []) 1).1.map
      (fun e => e.object3D.scale)) = some Vec3.one ∧
    ({ mkData "Scene" "Group" 0 with scale := ⟨2, 2, 2⟩ } : NodeData).scale ≠
      Vec3.one := by
  constructor
  · have hsome : ((inflateAux envNone
        (SceneNode.node { mkData "Scene" "Group" 0 with
          scale := ⟨2, 2, 2⟩ } []) 1).1).isSome = true := by
      rw [inflate_produces_iff]
      exact Or.inl rfl
    obtain ⟨e, he⟩ := Option.isSome_iff_exists.mp hsome
    rw [he, Option.map_some']
    obtain ⟨-, -, h3, -⟩ := inflate_some_spec envNone _ [] 1 e he
    rw [h3]
  · simp [mkData, Vec3.one]

/-- C2 amended: after inflation the node's local position and rotation are
zero, its scale is unit (the identity decomposition), and the returned
entity's position and rotation equal the node's pre-inflation values (the
rotation first normalized to `YXZ` order); the entity's scale, however,
remains the shell's default unit scale and is not copied from the node. -/
theorem claim_C2_transform_transfer (env : Env) (d : NodeData)
    (cs : List SceneNode) (ctr : Nat)
    (h : ((inflateAux env (SceneNode.node d cs) ctr).1).isSome = true) :
    (inflateAux env (SceneNode.node d cs) ctr).2.1.data.position = Vec3.zero ∧
    (inflateAux env (SceneNode.node d cs) ctr).2.1.data.rotation.x = 0 ∧
    (inflateAux env (SceneNode.node d cs) ctr).2.1.data.rotation.y = 0 ∧
    (inflateAux env (SceneNode.node d cs) ctr).2.1.data.rotation.z = 0 ∧
    (inflateAux env (SceneNode.node d cs) ctr).2.1.data.scale = Vec3.one ∧
    (inflateAux env (SceneNode.node d cs) ctr).2.1.data.matrixAutoUpdate
      = false ∧
    (inflateAux env (SceneNode.node d cs) ctr).1.map
      (fun e => e.object3D.position) = some d.position ∧
    (inflateAux env (SceneNode.node d cs) ctr).1.map
      (fun e => e.object3D.rotation) =
        some (normalizeRotation env d).rotation ∧
    (inflateAux env (SceneNode.node d cs) ctr).1.map
      (fun e => e.object3D.scale) = some Vec3.one := by
  obtain ⟨e, he⟩ := Option.isSome_iff_exists.mp h
  obtain ⟨h1, h2, h3, -, -, -, -, -, -, hnode, -⟩ :=
    inflate_some_spec env d cs ctr e he
  rw [hnode, he]
  simp only [SceneNode.data_node, Option.map_some']
  refine ⟨by simp [decomposeIdentity], by simp [decomposeIdentity],
    by simp [decomposeIdentity], by simp [decomposeIdentity],
    by simp [decomposeIdentity], by simp [decomposeIdentity],
    by rw [h1], by rw [h2], by rw [h3]⟩

/-- Witness for C2 at a concrete inflated root. -/
theorem claim_C2_witness :
    (((inflateAux envNone (SceneNode.node (mkData "Scene" "Group" 6) []) 7).1).isSome = true) ∧
    ((inflateAux envNone (SceneNode.node (mkData "Scene" "Group" 6) []) 7).2.1.data.position = Vec3.zero ∧
     (inflateAux envNone (SceneNode.node (mkData "Scene" "Group" 6) []) 7).2.1.data.rotation.x = 0 ∧
     (inflateAux envNone (SceneNode.node (mkData "Scene" "Group" 6) []) 7).2.1.data.rotation.y = 0 ∧
     (inflateAux envNone (SceneNode.node (mkData "Scene" "Group" 6) []) 7).2.1.data.rotation.z = 0 ∧
     (inflateAux envNone (SceneNode.node (mkData "Scene" "Group" 6) []) 7).2.1.data.scale = Vec3.one ∧
     (inflateAux envNone (SceneNode.node (mkData "Scene" "Group" 6) []) 7).2.1.data.matrixAutoUpdate = false ∧
     (inflateAux envNone (SceneNode.node (mkData "Scene" "Group" 6) []) 7).1.map
       (fun e => e.object3D.position) = some (mkData "Scene" "Group" 6).position ∧
     (inflateAux envNone (SceneNode.node (mkData "Scene" "Group" 6) []) 7).1.map
       (fun e => e.object3D.rotation) =
         some (normalizeRotation envNone (mkData "Scene" "Group" 6)).rotation ∧
     (inflateAux envNone (SceneNode.node (mkData "Scene" "Group" 6) []) 7).1.map
       (fun e => e.object3D.scale) = some Vec3.one) :=
  have h : ((inflateAux envNone
      (SceneNode.node (mkData "Scene" "Group" 6) []) 7).1).isSome = true := by
    rw [inflate_produces_iff]
    exact Or.inl rfl
  ⟨h, claim_C2_transform_transfer envNone (mkData "Scene" "Group" 6) [] 7 h⟩

/-! ### C7 -/

/-- C7: when a template is registered for a name but has no content
element, the shell resolution falls back to constructing a default empty
`a-entity` (no error), and a node with that name still qualifies for
inflation exactly as on the template path. -/
theorem claim_C7_empty_template_fallback (env : Env) (name : String)
    (ctr : Nat) (t : Template) (h1 : env.templates name = some t)
    (h2 : t.firstElementChild = none) :
    resolveShell env name ctr = newEntity ctr ∧
    (newEntity ctr).1 =
      Entity.mk "a-entity" [] [] (defaultObject3D ctr) [] [] ∧
    (∀ d cs ctr2, d.name = name →
      ((inflateAux env (SceneNode.node d cs) ctr2).1).isSome = true) := by
  refine ⟨?_, rfl, ?_⟩
  · simp [resolveShell, h1, h2]
  · intro d cs ctr2 hd
    rw [inflate_produces_iff]
    refine Or.inr (Or.inl ?_)
    rw [hd, h1, Option.isSome_some]

/-- An environment registering one empty template, under the name
`Empty`. -/
def envEmptyTmpl : Env :=
  { templates := fun n => if n = "Empty" then some ⟨none⟩ else none
    hands := true
    shirt := true
    head := true
    quatToEulerYXZ := fun _ => (0, 0, 0) }

/-- Witness for C7 with a concrete empty template. -/
theorem claim_C7_witness :
    envEmptyTmpl.templates "Empty" = some ⟨none⟩ ∧
    (⟨none⟩ : Template).firstElementChild = none ∧
    (resolveShell envEmptyTmpl "Empty" 4 = newEntity 4 ∧
     (newEntity 4).1 =
       Entity.mk "a-entity" [] [] (defaultObject3D 4) [] [] ∧
     (∀ d cs ctr2, d.name = "Empty" →
       ((inflateAux envEmptyTmpl (SceneNode.node d cs) ctr2).1).isSome
         = true)) :=
  ⟨by simp [envEmptyTmpl], rfl,
   claim_C7_empty_template_fallback envEmptyTmpl "Empty" 4 ⟨none⟩
     (by simp [envEmptyTmpl]) rfl⟩

/-! ### C8 -/

/-- An environment whose `head` visibility flag is off. -/
def envHeadOff : Env :=
  { templates := fun _ => none
    hands := true
    shirt := true
    head := false
    quatToEulerYXZ := fun _ => (0, 0, 0) }

/-- C8 counterexample: the claim asserts a pruned node is left completely
unmodified, including its visibility flag; but the visibility policy of
lines 50-61 runs before the pruning decision, so this pruned
`SkinnedMesh` node has its `visible` flag flipped from `true` to
`false`. -/
theorem claim_C8_counterexample :
    (inflateAux envHeadOff
      (SceneNode.node (mkData "Wolf3D_Head" "SkinnedMesh" 0) []) 3).1
        = none ∧
    (mkData "Wolf3D_Head" "SkinnedMesh" 0).visible = true ∧
    (inflateAux envHeadOff
      (SceneNode.node (mkData "Wolf3D_Head" "SkinnedMesh" 0) []) 3).2.1.data.visible = false := by
  have hp := inflateAux_pruned envHeadOff (mkData "Wolf3D_Head" "SkinnedMesh" 0)
    [] 3 (by simp [mkData]) rfl (by rw [inflateList_nil])
  rw [hp]
  refine ⟨rfl, rfl, ?_⟩
  simp [applyVisibility, mkData, envHeadOff]

/-- C8 amended: a pruned node keeps its transform, identity token, name,
type and matrix flag; only its `visible` flag may change (the mesh
visibility policy runs before the inclusion decision), no counter value is
consumed, and no child is detached — the remaining effect is the recursion
into its children. -/
theorem claim_C8_pruned_effects (env : Env) (d : NodeData)
    (cs : List SceneNode) (ctr : Nat)
    (h : (inflateAux env (SceneNode.node d cs) ctr).1 = none) :
    (inflateAux env (SceneNode.node d cs) ctr).2.1 =
      SceneNode.node (applyVisibility env d) (inflateList env cs ctr).2.1 ∧
    (inflateAux env (SceneNode.node d cs) ctr).2.2 = ctr ∧
    (inflateList env cs ctr).2.1.length = cs.length ∧
    (applyVisibility env d).position = d.position ∧
    (applyVisibility env d).rotation = d.rotation ∧
    (applyVisibility env d).scale = d.scale ∧
    (applyVisibility env d).quaternion = d.quaternion ∧
    (applyVisibility env d).matrixAutoUpdate = d.matrixAutoUpdate ∧
    (applyVisibility env d).uuid = d.uuid ∧
    (applyVisibility env d).name = d.name ∧
    (applyVisibility env d).type = d.type := by
  have hiff := inflate_produces_iff env d cs ctr
  rw [h] at hiff
  simp only [Option.isSome_none, Bool.false_eq_true, false_iff] at hiff
  push_neg at hiff
  obtain ⟨h1, h2, h3⟩ := hiff
  have h2' : env.templates d.name = none := by
    rcases he : env.templates d.name with _ | t
    · rfl
    · rw [he, Option.isSome_some] at h2
      simp at h2
  have hp := inflateAux_pruned env d cs ctr h1 h2' h3
  have hlen := inflateList_length env cs ctr
  rw [h3] at hlen
  simp only [List.length_nil, Nat.zero_add] at hlen
  refine ⟨by rw [hp], ?_, hlen,
    (applyVisibility_fields env d).2.2.1,
    (applyVisibility_fields env d).2.2.2.1,
    (applyVisibility_fields env d).2.2.2.2.2.1,
    (applyVisibility_fields env d).2.2.2.2.1,
    (applyVisibility_fields env d).2.2.2.2.2.2.1,
    (applyVisibility_fields env d).2.2.2.2.2.2.2,
    (applyVisibility_fields env d).1,
    (applyVisibility_fields env d).2.1⟩
  rw [hp]
  exact (inflate_pruned_counter env).2 cs ctr h3

/-- Witness for C8 at a concrete pruned plain node. -/
theorem claim_C8_witness :
    ((inflateAux envNone (SceneNode.node (mkData "Spine" "Bone" 0) []) 2).1
      = none) ∧
    ((inflateAux envNone (SceneNode.node (mkData "Spine" "Bone" 0) []) 2).2.1 =
      SceneNode.node (applyVisibility envNone (mkData "Spine" "Bone" 0))
        (inflateList envNone [] 2).2.1 ∧
     (inflateAux envNone (SceneNode.node (mkData "Spine" "Bone" 0) []) 2).2.2 = 2 ∧
     (inflateList envNone [] 2).2.1.length = ([] : List SceneNode).length ∧
     (applyVisibility envNone (mkData "Spine" "Bone" 0)).position =
       (mkData "Spine" "Bone" 0).position ∧
     (applyVisibility envNone (mkData "Spine" "Bone" 0)).rotation =
       (mkData "Spine" "Bone" 0).rotation ∧
     (applyVisibility envNone (mkData "Spine" "Bone" 0)).scale =
       (mkData "Spine" "Bone" 0).scale ∧
     (applyVisibility envNone (mkData "Spine" "Bone" 0)).quaternion =
       (mkData "Spine" "Bone" 0).quaternion ∧
     (applyVisibility envNone (mkData "Spine" "Bone" 0)).matrixAutoUpdate =
       (mkData "Spine" "Bone" 0).matrixAutoUpdate ∧
     (applyVisibility envNone (mkData "Spine" "Bone" 0)).uuid =
       (mkData "Spine" "Bone" 0).uuid ∧
     (applyVisibility envNone (mkData "Spine" "Bone" 0)).name =
       (mkData "Spine" "Bone" 0).name ∧
     (applyVisibility envNone (mkData "Spine" "Bone" 0)).type =
       (mkData "Spine" "Bone" 0).type) :=
  have h : (inflateAux envNone
      (SceneNode.node (mkData "Spine" "Bone" 0) []) 2).1 = none := by
    rw [inflateAux_pruned envNone (mkData "Spine" "Bone" 0) [] 2
      (by simp [mkData]) rfl (by rw [inflateList_nil])]
  ⟨h, claim_C8_pruned_effects envNone (mkData "Spine" "Bone" 0) [] 2 h⟩

/-! ### C9 -/

/-- C9: if any strict descendant of a node qualifies for inflation, the
node itself produces an entity — levels above a qualifying descendant are
never pruned, so the entity tree cannot skip them. -/
theorem claim_C9_ancestors_qualify (env : Env) (n m : SceneNode) (ctr : Nat)
    (hdesc : StrictDesc m n) (hq : qualifies env m = true) :
    ((inflateAux env n ctr).1).isSome = true := by
  rw [(inflate_isSome_eq_qualifies env).1 n ctr]
  exact qualifies_of_strictDesc env hdesc hq

/-- Witness for C9: a qualifying grandchild forces the grandparent in. -/
theorem claim_C9_witness :
    StrictDesc (SceneNode.node (mkData "Scene" "Group" 3) [])
      (SceneNode.node (mkData "Root" "Group" 1)
        [SceneNode.node (mkData "Armature" "Bone" 2)
          [SceneNode.node (mkData "Scene" "Group" 3) []]]) ∧
    qualifies envNone (SceneNode.node (mkData "Scene" "Group" 3) []) = true ∧
    ((inflateAux envNone
      (SceneNode.node (mkData "Root" "Group" 1)
        [SceneNode.node (mkData "Armature" "Bone" 2)
          [SceneNode.node (mkData "Scene" "Group" 3) []]]) 4).1).isSome
      = true :=
  have hdesc : StrictDesc (SceneNode.node (mkData "Scene" "Group" 3) [])
      (SceneNode.node (mkData "Root" "Group" 1)
        [SceneNode.node (mkData "Armature" "Bone" 2)
          [SceneNode.node (mkData "Scene" "Group" 3) []]]) :=
    StrictDesc.step (List.mem_cons_self _ _)
      (StrictDesc.child (List.mem_cons_self _ _))
  have hq : qualifies envNone
      (SceneNode.node (mkData "Scene" "Group" 3) []) = true := by
    simp [qualifies, mkData]
  ⟨hdesc, hq, claim_C9_ancestors_qualify envNone _ _ 4 hdesc hq⟩

/-! ### C3 -/

/-- Template content registered for `RightEye` in the end-to-end fixture. -/
def tmplBox : Entity := Entity.mk "a-box" [] [] (defaultObject3D 0) [] []

/-- Environment with a template registered only for `RightEye`. -/
def envEyes : Env :=
  { templates := fun n => if n = "RightEye" then some ⟨some tmplBox⟩ else none
    hands := true
    shirt := true
    head := true
    quatToEulerYXZ := fun _ => (0, 0, 0) }

/-- The 3-level tree `Scene → Hips → [LeftEye, RightEye]` with non-mesh
eyes and no mesh payloads. -/
def eyeTree : SceneNode :=
  SceneNode.node (mkData "Scene" "Group" 10)
    [SceneNode.node (mkData "Hips" "Bone" 11)
      [SceneNode.node (mkData "LeftEye" "Bone" 12) [],
       SceneNode.node (mkData "RightEye" "Bone" 13) []]]

/-- C3 counterexample: the claim says `inflate(Scene)` on this tree
returns an entity whose single child is the cloned RightEye template
entity, with the Hips level skipped; in fact the single child is the Hips
entity (a default `a-entity` with name attribute `Hips`), because a node
with an entity-producing child always qualifies itself (line 74). -/
theorem claim_C3_counterexample :
    ((inflateAux envEyes eyeTree 0).1.map
      (fun e => e.children.map (fun c => (c.tagName, getAttr c "name")))) =
      some [("a-entity", some "Hips")] := by
  simp [eyeTree, envEyes, mkData, tmplBox, inflateAux, inflateList,
    resolveShell, newEntity, cloneEntity, cloneEntityList, buildInflated,
    setAttr, getAttr, lookupAttr, classListAdd, stripNonWord,
    applyVisibility, normalizeRotation, decomposeIdentity, defaultObject3D]

/-- C3 amended: on the fixture tree with a template registered only for
`RightEye`, `inflate(Scene)` returns an entity whose single child is the
Hips entity (Hips qualifies because RightEye produced an entity), and the
cloned RightEye template entity (`a-box`) is in turn the single child of
the Hips entity; LeftEye is pruned and no level is skipped. -/
theorem claim_C3_entity_tree :
    ((inflateAux envEyes eyeTree 0).1.map
      (fun e => e.children.map (fun c =>
        (c.tagName, getAttr c "name",
         c.children.map (fun g => (g.tagName, getAttr g "name")))))) =
      some [("a-entity", some "Hips", [("a-box", some "RightEye")])] := by
  simp [eyeTree, envEyes, mkData, tmplBox, inflateAux, inflateList,
    resolveShell, newEntity, cloneEntity, cloneEntityList, buildInflated,
    setAttr, getAttr, lookupAttr, classListAdd, stripNonWord,
    applyVisibility, normalizeRotation, decomposeIdentity, defaultObject3D]

/-! ### C6 -/

/-- One step of the child loop, stated with `Option.toList`: the produced
entities are the child's optional entity followed by the rest. -/
theorem inflateList_cons_toList (env : Env) (c : SceneNode)
    (rest : List SceneNode) (ctr : Nat) :
    (inflateList env (c :: rest) ctr).1 =
      (inflateAux env c ctr).1.toList ++
        (inflateList env rest (inflateAux env c ctr).2.2).1 := by
  rw [inflateList_cons]
  cases h : (inflateAux env c ctr).1 <;> simp [h]

/-- Sphere template content. -/
def tmplSphere : Entity := Entity.mk "a-sphere" [] [] (defaultObject3D 0) [] []

/-- Cylinder template content. -/
def tmplCylinder : Entity :=
  Entity.mk "a-cylinder" [] [] (defaultObject3D 0) [] []

/-- Template content for `Body` that itself contains a child element. -/
def tmplBodyWithChild : Entity :=
  Entity.mk "a-entity" [] [] (defaultObject3D 0) [] [tmplBox]

/-- Environment with templates for `Body` (with a content child),
`LeftHand` and `RightHand`. -/
def envBody : Env :=
  { templates := fun n =>
      if n = "Body" then some ⟨some tmplBodyWithChild⟩
      else if n = "LeftHand" then some ⟨some tmplSphere⟩
      else if n = "RightHand" then some ⟨some tmplCylinder⟩
      else none
    hands := true
    shirt := true
    head := true
    quatToEulerYXZ := fun _ => (0, 0, 0) }

/-- A `Body` node with children `[LeftHand, Spine2, RightHand]` where the
outer two qualify (templates) and the middle one is pruned. -/
def bodyTree : SceneNode :=
  SceneNode.node (mkData "Body" "Group" 20)
    [SceneNode.node (mkData "LeftHand" "Bone" 21) [],
     SceneNode.node (mkData "Spine2" "Bone" 22) [],
     SceneNode.node (mkData "RightHand" "Bone" 23) []]

/-- C6 counterexample: with children `[A, B, C]` where A and C qualify and
B does not, the claim says the returned entity's children are exactly
`[inflate(A), inflate(C)]`; but when the node's own template content has a
child, the cloned content child precedes them, so the entity has three
children, not two. -/
theorem claim_C6_counterexample :
    ((inflateAux envBody bodyTree 0).1.map
      (fun e => e.children.map Entity.tagName)) =
      some ["a-box", "a-sphere", "a-cylinder"] ∧
    ((inflateAux envBody bodyTree 0).1.map
      (fun e => e.children.length)) = some 3 := by
  constructor <;>
    simp [bodyTree, envBody, mkData, tmplBox, tmplSphere, tmplCylinder,
      tmplBodyWithChild, inflateAux, inflateList, resolveShell, newEntity,
      cloneEntity, cloneEntityList, buildInflated, setAttr, getAttr,
      lookupAttr, classListAdd, stripNonWord, applyVisibility,
      normalizeRotation, decomposeIdentity, defaultObject3D]

/-- C6 amended: for a node with children `[A, B, C]` where A and C produce
entities and B does not, the collected child entities are exactly
`inflate(A)`'s entity followed by `inflate(C)`'s entity, in input order
over the pre-recursion snapshot; the returned entity's children are the
shell's own template-content children (empty for a default shell) followed
by that list. -/
theorem claim_C6_child_order (env : Env) (d : NodeData) (A B C : SceneNode)
    (ctr : Nat)
    (hA : ((inflateAux env A ctr).1).isSome = true)
    (hB : (inflateAux env B (inflateAux env A ctr).2.2).1 = none)
    (hC : ((inflateAux env C
      (inflateAux env B (inflateAux env A ctr).2.2).2.2).1).isSome = true) :
    (inflateList env [A, B, C] ctr).1 =
      (inflateAux env A ctr).1.toList ++
        (inflateAux env C
          (inflateAux env B (inflateAux env A ctr).2.2).2.2).1.toList ∧
    (∀ e, (inflateAux env (SceneNode.node d [A, B, C]) ctr).1 = some e →
      e.children =
        (resolveShell env d.name
          (inflateList env [A, B, C] ctr).2.2).1.children ++
          (inflateList env [A, B, C] ctr).1) := by
  have hlist : (inflateList env [A, B, C] ctr).1 =
      (inflateAux env A ctr).1.toList ++
        (inflateAux env C
          (inflateAux env B (inflateAux env A ctr).2.2).2.2).1.toList := by
    rw [inflateList_cons_toList, inflateList_cons_toList, hB,
      inflateList_cons_toList, inflateList_nil]
    simp
  refine ⟨hlist, ?_⟩
  intro e he
  exact (inflate_some_spec env d [A, B, C] ctr e he).2.2.2.2.2.2.2.1

/-- Witness for C6 on a concrete `[LeftHand, Spine2, RightHand]` sibling
list under a template-less parent. -/
theorem claim_C6_witness :
    (((inflateAux envBody (SceneNode.node (mkData "LeftHand" "Bone" 21) []) 0).1).isSome = true) ∧
    ((inflateAux envBody (SceneNode.node (mkData "Spine2" "Bone" 22) [])
      (inflateAux envBody (SceneNode.node (mkData "LeftHand" "Bone" 21) []) 0).2.2).1 = none) ∧
    (((inflateAux envBody (SceneNode.node (mkData "RightHand" "Bone" 23) [])
      (inflateAux envBody (SceneNode.node (mkData "Spine2" "Bone" 22) [])
        (inflateAux envBody (SceneNode.node (mkData "LeftHand" "Bone" 21) []) 0).2.2).2.2).1).isSome = true) ∧
    ((inflateList envBody
        [SceneNode.node (mkData "LeftHand" "Bone" 21) [],
         SceneNode.node (mkData "Spine2" "Bone" 22) [],
         SceneNode.node (mkData "RightHand" "Bone" 23) []] 0).1 =
      (inflateAux envBody (SceneNode.node (mkData "LeftHand" "Bone" 21) []) 0).1.toList ++
        (inflateAux envBody (SceneNode.node (mkData "RightHand" "Bone" 23) [])
          (inflateAux envBody (SceneNode.node (mkData "Spine2" "Bone" 22) [])
            (inflateAux envBody (SceneNode.node (mkData "LeftHand" "Bone" 21) []) 0).2.2).2.2).1.toList ∧
     (∀ e, (inflateAux envBody (SceneNode.node (mkData "Torso" "Group" 30)
        [SceneNode.node (mkData "LeftHand" "Bone" 21) [],
         SceneNode.node (mkData "Spine2" "Bone" 22) [],
         SceneNode.node (mkData "RightHand" "Bone" 23) []]) 0).1 = some e →
      e.children =
        (resolveShell envBody (mkData "Torso" "Group" 30).name
          (inflateList envBody
            [SceneNode.node (mkData "LeftHand" "Bone" 21) [],
             SceneNode.node (mkData "Spine2" "Bone" 22) [],
             SceneNode.node (mkData "RightHand" "Bone" 23) []] 0).2.2).1.children ++
          (inflateList envBody
            [SceneNode.node (mkData "LeftHand" "Bone" 21) [],
             SceneNode.node (mkData "Spine2" "Bone" 22) [],
             SceneNode.node (mkData "RightHand" "Bone" 23) []] 0).1)) :=
  have hA : ((inflateAux envBody
      (SceneNode.node (mkData "LeftHand" "Bone" 21) []) 0).1).isSome = true := by
    simp [envBody, mkData, tmplSphere, inflateAux, inflateList, resolveShell,
      cloneEntity, cloneEntityList, buildInflated, setAttr, classListAdd,
      stripNonWord, applyVisibility, normalizeRotation, decomposeIdentity,
      defaultObject3D]
  have hB : (inflateAux envBody (SceneNode.node (mkData "Spine2" "Bone" 22) [])
      (inflateAux envBody (SceneNode.node (mkData "LeftHand" "Bone" 21) []) 0).2.2).1 = none := by
    simp [envBody, mkData, tmplSphere, inflateAux, inflateList, resolveShell,
      cloneEntity, cloneEntityList, buildInflated, setAttr, classListAdd,
      stripNonWord, applyVisibility, normalizeRotation, decomposeIdentity,
      defaultObject3D]
  have hC : ((inflateAux envBody (SceneNode.node (mkData "RightHand" "Bone" 23) [])
      (inflateAux envBody (SceneNode.node (mkData "Spine2" "Bone" 22) [])
        (inflateAux envBody (SceneNode.node (mkData "LeftHand" "Bone" 21) []) 0).2.2).2.2).1).isSome = true := by
    simp [envBody, mkData, tmplSphere, tmplCylinder, inflateAux, inflateList,
      resolveShell, cloneEntity, cloneEntityList, buildInflated, setAttr,
      classListAdd, stripNonWord, applyVisibility, normalizeRotation,
      decomposeIdentity, defaultObject3D]
  ⟨hA, hB, hC,
   claim_C6_child_order envBody (mkData "Torso" "Group" 30) _ _ _ 0 hA hB hC⟩

/-! ### C4: identity tokens -/

theorem entityListUuids_append :
    ∀ l1 l2 : List Entity,
      entityListUuids (l1 ++ l2) = entityListUuids l1 ++ entityListUuids l2
  | [], l2 => by simp
  | e :: rest, l2 => by
    simp [entityListUuids_cons, entityListUuids_append rest l2]

theorem entityUuids_eq (e : Entity) :
    entityUuids e = e.object3D.uuid ::
      (mapUuids e.object3DMap ++ entityListUuids e.children) := by
  rcases e with ⟨t, a, c, o, m, ch⟩
  simp

theorem runUuids_some {r : Option Entity × SceneNode × Nat} {e : Entity}
    (h : r.1 = some e) : runUuids r = entityUuids e := by
  simp [runUuids, h]

theorem runUuids_none {r : Option Entity × SceneNode × Nat}
    (h : r.1 = none) : runUuids r = nodeUuids r.2.1 := by
  simp [runUuids, h]

/-- The uuids reachable from the entity and from the node post-state built
by `buildInflated`. -/
theorem buildInflated_uuids (env : Env) (d1 : NodeData) (shell : Entity)
    (ces : List Entity) (rem : List SceneNode) (fresh : Nat)
    (hmap : shell.object3DMap = []) :
    entityUuids (buildInflated env d1 shell ces rem fresh).1 =
      d1.uuid :: ((fresh :: nodeListUuids rem) ++
        (entityListUuids shell.children ++ entityListUuids ces)) ∧
    nodeUuids (buildInflated env d1 shell ces rem fresh).2 =
      fresh :: nodeListUuids rem := by
  simp [buildInflated, hmap, entityListUuids_append, decomposeIdentity]

/-- Bounds and distinctness for the uuids of the shell's content
children. -/
theorem resolveShell_children_uuids (env : Env) (name : String) (ctr : Nat) :
    (∀ u ∈ entityListUuids (resolveShell env name ctr).1.children,
      ctr ≤ u ∧ u < (resolveShell env name ctr).2) ∧
    (entityListUuids (resolveShell env name ctr).1.children).Nodup := by
  have h := resolveShell_uuids env name ctr
  have he := entityUuids_eq (resolveShell env name ctr).1
  rw [resolveShell_object3DMap] at he
  simp only [mapUuids_nil, List.nil_append] at he
  constructor
  · intro u hu
    exact h.2.1 u (by rw [he]; exact List.mem_cons_of_mem _ hu)
  · have hnd := h.2.2
    rw [he] at hnd
    exact (List.nodup_cons.mp hnd).2

/-- Main identity-token invariant of an inflation run: every token present
afterwards is either an original token of the subtree or one drawn from
the counter range the run consumed; and when the original tokens are
pairwise distinct and below the initial counter (the generator contract),
the tokens present after the run are pairwise distinct. -/
theorem inflate_uuid_invariant (env : Env) :
    (∀ n ctr,
      (∀ u ∈ runUuids (inflateAux env n ctr),
        u ∈ nodeUuids n ∨ (ctr ≤ u ∧ u < (inflateAux env n ctr).2.2)) ∧
      ((nodeUuids n).Nodup → (∀ u ∈ nodeUuids n, u < ctr) →
        (runUuids (inflateAux env n ctr)).Nodup)) ∧
    (∀ cs ctr,
      (∀ u ∈ entityListUuids (inflateList env cs ctr).1 ++
          nodeListUuids (inflateList env cs ctr).2.1,
        u ∈ nodeListUuids cs ∨ (ctr ≤ u ∧ u < (inflateList env cs ctr).2.2)) ∧
      ((nodeListUuids cs).Nodup → (∀ u ∈ nodeListUuids cs, u < ctr) →
        (entityListUuids (inflateList env cs ctr).1 ++
          nodeListUuids (inflateList env cs ctr).2.1).Nodup)) := by
  refine inflate_ind env ?_ ?_ ?_
  · -- node case
    intro d cs ctr ih
    obtain ⟨ihmem, ihnd⟩ := ih
    by_cases hc : d.name ≠ "Scene" ∧ env.templates d.name = none ∧
        (inflateList env cs ctr).1 = []
    · -- pruned branch
      obtain ⟨hc1, hc2, hc3⟩ := hc
      have hp := inflateAux_pruned env d cs ctr hc1 hc2 hc3
      rw [hp]
      rw [hc3] at ihmem ihnd
      simp only [entityListUuids_nil, List.nil_append] at ihmem ihnd
      constructor
      · intro u hu
        simp only [runUuids, nodeUuids_node, applyVisibility_uuid] at hu
        simp only [nodeUuids_node]
        rcases List.mem_cons.mp hu with rfl | hu2
        · exact Or.inl (List.mem_cons_self _ _)
        · rcases ihmem u hu2 with h | h
          · exact Or.inl (List.mem_cons_of_mem _ h)
          · exact Or.inr h
      · intro hnd hb
        simp only [nodeUuids_node] at hnd hb
        simp only [runUuids, nodeUuids_node, applyVisibility_uuid]
        rw [List.nodup_cons]
        constructor
        · intro hmem
          rcases ihmem _ hmem with h | h
          · exact (List.nodup_cons.mp hnd).1 h
          · have := hb d.uuid (List.mem_cons_self _ _)
            omega
        · exact ihnd (List.nodup_cons.mp hnd).2
            (fun u hu => hb u (List.mem_cons_of_mem _ hu))
    · -- included branch
      have hi := inflateAux_included env d cs ctr hc
      rw [hi]
      simp only []
      have hmap : (resolveShell env d.name
          (inflateList env cs ctr).2.2).1.object3DMap = [] :=
        resolveShell_object3DMap env d.name (inflateList env cs ctr).2.2
      have hbu := buildInflated_uuids env (applyVisibility env d)
        (resolveShell env d.name (inflateList env cs ctr).2.2).1
        (inflateList env cs ctr).1 (inflateList env cs ctr).2.1
        (resolveShell env d.name (inflateList env cs ctr).2.2).2 hmap
      have hmono : ctr ≤ (inflateList env cs ctr).2.2 :=
        (inflate_counter_mono env).2 cs ctr
      have hrs := resolveShell_uuids env d.name (inflateList env cs ctr).2.2
      have hch := resolveShell_children_uuids env d.name
        (inflateList env cs ctr).2.2
      have hrun : runUuids
          (some (buildInflated env (applyVisibility env d)
            (resolveShell env d.name (inflateList env cs ctr).2.2).1
            (inflateList env cs ctr).1 (inflateList env cs ctr).2.1
            (resolveShell env d.name (inflateList env cs ctr).2.2).2).1,
           (buildInflated env (applyVisibility env d)
            (resolveShell env d.name (inflateList env cs ctr).2.2).1
            (inflateList env cs ctr).1 (inflateList env cs ctr).2.1
            (resolveShell env d.name (inflateList env cs ctr).2.2).2).2,
           (resolveShell env d.name (inflateList env cs ctr).2.2).2 + 1) =
          entityUuids (buildInflated env (applyVisibility env d)
            (resolveShell env d.name (inflateList env cs ctr).2.2).1
            (inflateList env cs ctr).1 (inflateList env cs ctr).2.1
            (resolveShell env d.name (inflateList env cs ctr).2.2).2).1 := by
        simp [runUuids]
      rw [hrun, hbu.1, applyVisibility_uuid]
      constructor
      · intro u hu
        simp only [List.mem_cons, List.mem_append, nodeUuids_node] at hu ⊢
        rcases hu with rfl | hu
        · exact Or.inl (Or.inl rfl)
        rcases hu with (rfl | hA) | (hB | hC)
        · exact Or.inr ⟨by omega, by omega⟩
        · rcases ihmem u (List.mem_append_right _ hA) with h | h
          · exact Or.inl (Or.inr h)
          · refine Or.inr ⟨h.1, ?_⟩
            have := h.2
            omega
        · have := hch.1 u hB
          exact Or.inr ⟨by omega, by omega⟩
        · rcases ihmem u (List.mem_append_left _ hC) with h | h
          · exact Or.inl (Or.inr h)
          · refine Or.inr ⟨h.1, ?_⟩
            have := h.2
            omega
      · intro hnd hb
        simp only [nodeUuids_node] at hnd hb
        have hndcs : (nodeListUuids cs).Nodup := (List.nodup_cons.mp hnd).2
        have hbcs : ∀ u ∈ nodeListUuids cs, u < ctr :=
          fun u hu => hb u (List.mem_cons_of_mem _ hu)
        have hL := ihnd hndcs hbcs
        have hlt : ∀ u ∈ entityListUuids (inflateList env cs ctr).1 ++
            nodeListUuids (inflateList env cs ctr).2.1,
            u < (inflateList env cs ctr).2.2 := by
          intro u hu
          rcases ihmem u hu with h | h
          · have := hbcs u h
            omega
          · exact h.2
        rw [List.nodup_cons]
        constructor
        · intro hmem
          have hdlt := hb d.uuid (List.mem_cons_self _ _)
          simp only [List.mem_cons, List.mem_append] at hmem
          rcases hmem with (heq2 | hA) | (hB | hC)
          · omega
          · rcases ihmem d.uuid (List.mem_append_right _ hA) with h | h
            · exact (List.nodup_cons.mp hnd).1 h
            · omega
          · have := hch.1 d.uuid hB
            omega
          · rcases ihmem d.uuid (List.mem_append_left _ hC) with h | h
            · exact (List.nodup_cons.mp hnd).1 h
            · omega
        · refine List.Nodup.append ?_ ?_ ?_
          · rw [List.nodup_cons]
            constructor
            · intro hA
              have := hlt _ (List.mem_append_right _ hA)
              omega
            · exact (List.Nodup.of_append_right hL)
          · refine List.Nodup.append hch.2
              (List.Nodup.of_append_left hL) ?_
            rw [List.disjoint_left]
            intro u hB hC
            have h1 := hch.1 u hB
            have h2 := hlt u (List.mem_append_left _ hC)
            omega
          · rw [List.disjoint_left]
            intro u hu hBC
            simp only [List.mem_cons] at hu
            simp only [List.mem_append] at hBC
            rcases hu with heq2 | hA
            · rcases hBC with hB | hC
              · have := hch.1 u hB
                omega
              · have := hlt u (List.mem_append_left _ hC)
                omega
            · rcases hBC with hB | hC
              · have h1 := hch.1 u hB
                have h2 := hlt u (List.mem_append_right _ hA)
                omega
              · exact (List.disjoint_of_nodup_append hL).symm hA hC
  · -- nil case
    intro ctr
    rw [inflateList_nil]
    simp
  · -- cons case
    intro c rest ctr ih1 ih2
    obtain ⟨ih1mem, ih1nd⟩ := ih1
    obtain ⟨ih2mem, ih2nd⟩ := ih2
    have hmono1 : ctr ≤ (inflateAux env c ctr).2.2 :=
      (inflate_counter_mono env).1 c ctr
    have hmono2 : (inflateAux env c ctr).2.2 ≤
        (inflateList env rest (inflateAux env c ctr).2.2).2.2 :=
      (inflate_counter_mono env).2 rest (inflateAux env c ctr).2.2
    rw [inflateList_cons]
    simp only []
    rcases heq : (inflateAux env c ctr).1 with _ | e
    · -- child pruned: kept in the parent's child list
      have hrun := runUuids_none heq
      rw [hrun] at ih1mem ih1nd
      constructor
      · intro u hu
        simp only [nodeListUuids_cons, List.mem_append, List.mem_cons,
          entityListUuids_cons] at hu ⊢
        rcases hu with hC2 | hu
        · rcases ih2mem u (List.mem_append_left _ hC2) with h | h
          · exact Or.inl (Or.inr h)
          · exact Or.inr ⟨by omega, h.2⟩
        rcases hu with hN1 | hA2
        · rcases ih1mem u hN1 with h | h
          · exact Or.inl (Or.inl h)
          · exact Or.inr ⟨h.1, by omega⟩
        · rcases ih2mem u (List.mem_append_right _ hA2) with h | h
          · exact Or.inl (Or.inr h)
          · exact Or.inr ⟨by omega, h.2⟩
      · intro hnd hb
        simp only [nodeListUuids_cons] at hnd hb
        have hndc : (nodeUuids c).Nodup := List.Nodup.of_append_left hnd
        have hndrest : (nodeListUuids rest).Nodup :=
          List.Nodup.of_append_right hnd
        have hbc : ∀ u ∈ nodeUuids c, u < ctr :=
          fun u hu => hb u (List.mem_append_left _ hu)
        have hbrest0 : ∀ u ∈ nodeListUuids rest, u < ctr :=
          fun u hu => hb u (List.mem_append_right _ hu)
        have hbrest : ∀ u ∈ nodeListUuids rest,
            u < (inflateAux env c ctr).2.2 := by
          intro u hu
          have := hbrest0 u hu
          omega
        have hN1 := ih1nd hndc hbc
        have hL2 := ih2nd hndrest hbrest
        have hN1char : ∀ u ∈ nodeUuids (inflateAux env c ctr).2.1,
            u ∈ nodeUuids c ∨
              (ctr ≤ u ∧ u < (inflateAux env c ctr).2.2) := ih1mem
        have hL2char := ih2mem
        simp only [entityListUuids_cons, nodeListUuids_cons]
        -- goal: Nodup (C2 ++ (N1 ++ A2)) given Nodup (C2 ++ A2), Nodup N1
        have hdisjC2A2 := List.disjoint_of_nodup_append hL2
        have hC2nd := List.Nodup.of_append_left hL2
        have hA2nd := List.Nodup.of_append_right hL2
        refine List.Nodup.append hC2nd (List.Nodup.append hN1 hA2nd ?_) ?_
        · rw [List.disjoint_left]
          intro u hN hA2
          rcases hN1char u hN with h | h
          · have h1 := hbc u h
            rcases hL2char u (List.mem_append_right _ hA2) with h2 | h2
            · exact (List.disjoint_of_nodup_append hnd) h h2
            · omega
          · rcases hL2char u (List.mem_append_right _ hA2) with h2 | h2
            · have := hbrest0 u h2
              omega
            · omega
        · rw [List.disjoint_left]
          intro u hC2 hu
          simp only [List.mem_append] at hu
          rcases hL2char u (List.mem_append_left _ hC2) with h2 | h2
          · rcases hu with hN | hA2
            · rcases hN1char u hN with h | h
              · exact (List.disjoint_of_nodup_append hnd).symm h2 h
              · have := hbrest0 u h2
                omega
            · exact hdisjC2A2 hC2 hA2
          · rcases hu with hN | hA2
            · rcases hN1char u hN with h | h
              · have := hbc u h
                omega
              · omega
            · exact hdisjC2A2 hC2 hA2
    · -- child inflated: detached from the parent's child list
      have hrun := runUuids_some heq
      rw [hrun] at ih1mem ih1nd
      constructor
      · intro u hu
        simp only [nodeListUuids_cons, List.mem_append,
          entityListUuids_cons] at hu ⊢
        rcases hu with (hE | hC2) | hA2
        · rcases ih1mem u hE with h | h
          · exact Or.inl (Or.inl h)
          · exact Or.inr ⟨h.1, by omega⟩
        · rcases ih2mem u (List.mem_append_left _ hC2) with h | h
          · exact Or.inl (Or.inr h)
          · exact Or.inr ⟨by omega, h.2⟩
        · rcases ih2mem u (List.mem_append_right _ hA2) with h | h
          · exact Or.inl (Or.inr h)
          · exact Or.inr ⟨by omega, h.2⟩
      · intro hnd hb
        simp only [nodeListUuids_cons] at hnd hb
        have hndc : (nodeUuids c).Nodup := List.Nodup.of_append_left hnd
        have hndrest : (nodeListUuids rest).Nodup :=
          List.Nodup.of_append_right hnd
        have hbc : ∀ u ∈ nodeUuids c, u < ctr :=
          fun u hu => hb u (List.mem_append_left _ hu)
        have hbrest0 : ∀ u ∈ nodeListUuids rest, u < ctr :=
          fun u hu => hb u (List.mem_append_right _ hu)
        have hbrest : ∀ u ∈ nodeListUuids rest,
            u < (inflateAux env c ctr).2.2 := by
          intro u hu
          have := hbrest0 u hu
          omega
        have hE := ih1nd hndc hbc
        have hL2 := ih2nd hndrest hbrest
        simp only [entityListUuids_cons, nodeListUuids_cons]
        rw [List.append_assoc]
        refine List.Nodup.append hE (ih2nd hndrest hbrest) ?_
        rw [List.disjoint_left]
        intro u hEm hu
        rcases ih1mem u hEm with h | h
        · have h1 := hbc u h
          rcases ih2mem u hu with h2 | h2
          · exact (List.disjoint_of_nodup_append hnd) h h2
          · omega
        · rcases ih2mem u hu with h2 | h2
          · have := hbrest0 u h2
            omega
          · omega

/-- C4: for every node that inflate turns into an entity, the entity's
identity token equals the node's pre-inflation token (line 131), the
node's token is freshly drawn and differs from its pre-inflation token
(line 132), and — under the generator contract that the loader-assigned
tokens are pairwise distinct and the generator only produces unused
tokens (originals below the initial counter) — all tokens present after
the run, over all nodes and entities, are pairwise distinct. -/
theorem claim_C4_identity_swap (env : Env) (d : NodeData)
    (cs : List SceneNode) (ctr : Nat)
    (hnd : (nodeUuids (SceneNode.node d cs)).Nodup)
    (hb : ∀ u ∈ nodeUuids (SceneNode.node d cs), u < ctr)
    (hs : ((inflateAux env (SceneNode.node d cs) ctr).1).isSome = true) :
    (inflateAux env (SceneNode.node d cs) ctr).1.map
      (fun e => e.object3D.uuid) = some d.uuid ∧
    (inflateAux env (SceneNode.node d cs) ctr).2.1.data.uuid ≠ d.uuid ∧
    ctr ≤ (inflateAux env (SceneNode.node d cs) ctr).2.1.data.uuid ∧
    (runUuids (inflateAux env (SceneNode.node d cs) ctr)).Nodup := by
  obtain ⟨e, he⟩ := Option.isSome_iff_exists.mp hs
  obtain ⟨-, -, -, -, -, huuid, -, -, -, hnode, -⟩ :=
    inflate_some_spec env d cs ctr e he
  have h1 : ctr ≤ (inflateList env cs ctr).2.2 :=
    (inflate_counter_mono env).2 cs ctr
  have h2 := (resolveShell_uuids env d.name (inflateList env cs ctr).2.2).1
  have h3 : d.uuid < ctr := hb d.uuid (by simp)
  have hu : (inflateAux env (SceneNode.node d cs) ctr).2.1.data.uuid =
      (resolveShell env d.name (inflateList env cs ctr).2.2).2 := by
    rw [hnode]
    simp
  refine ⟨by rw [he, Option.map_some', huuid], ?_, ?_, ?_⟩
  · rw [hu]
    omega
  · rw [hu]
    omega
  · exact ((inflate_uuid_invariant env).1 (SceneNode.node d cs) ctr).2 hnd hb

/-- Witness for C4 on a concrete two-node tree whose original tokens are
distinct and below the initial counter. -/
theorem claim_C4_witness :
    ((nodeUuids (SceneNode.node (mkData "Scene" "Group" 0)
      [SceneNode.node (mkData "Hips" "Bone" 1) []])).Nodup) ∧
    (∀ u ∈ nodeUuids (SceneNode.node (mkData "Scene" "Group" 0)
      [SceneNode.node (mkData "Hips" "Bone" 1) []]), u < 2) ∧
    (((inflateAux envNone (SceneNode.node (mkData "Scene" "Group" 0)
      [SceneNode.node (mkData "Hips" "Bone" 1) []]) 2).1).isSome = true) ∧
    ((inflateAux envNone (SceneNode.node (mkData "Scene" "Group" 0)
        [SceneNode.node (mkData "Hips" "Bone" 1) []]) 2).1.map
      (fun e => e.object3D.uuid) = some (mkData "Scene" "Group" 0).uuid ∧
     (inflateAux envNone (SceneNode.node (mkData "Scene" "Group" 0)
        [SceneNode.node (mkData "Hips" "Bone" 1) []]) 2).2.1.data.uuid ≠
       (mkData "Scene" "Group" 0).uuid ∧
     2 ≤ (inflateAux envNone (SceneNode.node (mkData "Scene" "Group" 0)
        [SceneNode.node (mkData "Hips" "Bone" 1) []]) 2).2.1.data.uuid ∧
     (runUuids (inflateAux envNone (SceneNode.node (mkData "Scene" "Group" 0)
        [SceneNode.node (mkData "Hips" "Bone" 1) []]) 2)).Nodup) :=
  have hnd : (nodeUuids (SceneNode.node (mkData "Scene" "Group" 0)
      [SceneNode.node (mkData "Hips" "Bone" 1) []])).Nodup := by
    simp [mkData]
  have hb : ∀ u ∈ nodeUuids (SceneNode.node (mkData "Scene" "Group" 0)
      [SceneNode.node (mkData "Hips" "Bone" 1) []]), u < 2 := by
    simp [mkData]
  have hs : ((inflateAux envNone (SceneNode.node (mkData "Scene" "Group" 0)
      [SceneNode.node (mkData "Hips" "Bone" 1) []]) 2).1).isSome = true := by
    rw [inflate_produces_iff]
    exact Or.inl rfl
  ⟨hnd, hb, hs,
   claim_C4_identity_swap envNone (mkData "Scene" "Group" 0) _ 2 hnd hb hs⟩

end RPMAvatar
